import Mathlib

/-!
Verification of the rusty-sodalite safety layer.

The development shallowly embeds the library's Rust source:

* `padding_constants` (src/padding_constants.rs): the four NaCl padding
  constants.
* `pad_zeroes` / `unpad_zeroes` (src/padding_helpers.rs): the padding codec.
* `safe_box` / `safe_box_open` / `safe_box_keypair_seed` (src/safe_box.rs),
  `safe_secretbox` / `safe_secretbox_open` (src/safe_secretbox.rs),
  `safe_sign_attached` / `safe_sign_attached_open` (src/safe_sign.rs):
  the scheme wrappers.  Each wrapper is parameterised over the external
  sodalite primitive it delegates to (`BoxPrim`, `SecretboxPrim`,
  `SignPrim`), mirroring the design's treatment of the primitive library as
  an injected black-box capability; theorems that need the primitive's
  documented NaCl contract take it as an explicit hypothesis.

Byte buffers are `List Nat` (each element a byte value); Rust's `Box<[u8]>`
and `Vec<u8>` are both buffers.  A Rust function that can reach a
`panic` / `expect` / `assert` is modelled with the result type `RResult`,
whose `fatal` constructor carries the panic message; `Option` models Rust's
`Option`, and the primitives' `Result<_, ()>` is `Except Unit _`.
-/

/-- `RResult α`: result of a Rust computation that either returns normally
or dies with a fatal panic message. -/
inductive RResult (α : Type) where
  | ok : α → RResult α
  | fatal : String → RResult α
deriving Repr, DecidableEq

/-- src/padding_constants.rs: `BOX_ZEROBYTES = 32`. -/
def BOX_ZEROBYTES : Nat := 32

/-- src/padding_constants.rs: `BOX_BOXZEROBYTES = 16`. -/
def BOX_BOXZEROBYTES : Nat := 16

/-- src/padding_constants.rs: `SECRETBOX_ZEROBYTES = 32`. -/
def SECRETBOX_ZEROBYTES : Nat := 32

/-- src/padding_constants.rs: `SECRETBOX_BOXZEROBYTES = 16`. -/
def SECRETBOX_BOXZEROBYTES : Nat := 16

/-- sodalite's `SIGN_LEN` constant (64 bytes of attached signature). -/
def SIGN_LEN : Nat := 64

/-- src/padding_helpers.rs `pad_zeroes`: prepend `size` zero bytes
(`[padding, unpadded].concat()` with `padding = vec![0; size]`). -/
def pad_zeroes (size : Nat) (unpadded : List Nat) : List Nat :=
  List.replicate size 0 ++ unpadded

/-- src/padding_helpers.rs `unpad_zeroes`: check and remove a prefix of
`size` zero bytes, `none` when `size` exceeds the length or the prefix has a
non-zero byte. -/
def unpad_zeroes (size : Nat) (padded : List Nat) : Option (List Nat) :=
  if size ≤ padded.length then
    let sp := padded.splitAt size
    let padding := sp.1
    let unpadded := sp.2
    if padding.all (fun b => b == 0) then
      some unpadded
    else
      none
  else
    none

lemma pad_zeroes_length (s : Nat) (x : List Nat) :
    (pad_zeroes s x).length = x.length + s := by
  simp [pad_zeroes, Nat.add_comm]

lemma pad_zeroes_take (s : Nat) (x : List Nat) :
    (pad_zeroes s x).take s = List.replicate s 0 := by
  have h : s = (List.replicate s (0 : Nat)).length := by simp
  rw [pad_zeroes]
  nth_rewrite 1 [h]
  exact List.take_left _ _

lemma pad_zeroes_drop (s : Nat) (x : List Nat) :
    (pad_zeroes s x).drop s = x := by
  have h : s = (List.replicate s (0 : Nat)).length := by simp
  rw [pad_zeroes]
  nth_rewrite 1 [h]
  exact List.drop_left _ _

/-- Success characterisation of `unpad_zeroes`. -/
lemma unpad_zeroes_eq_some_iff (s : Nat) (p : List Nat) :
    unpad_zeroes s p = some (p.drop s) ↔
      s ≤ p.length ∧ ∀ b ∈ p.take s, b = 0 := by
  unfold unpad_zeroes
  by_cases hle : s ≤ p.length
  · simp only [hle, if_true, List.splitAt_eq, true_and]
    by_cases hz : ∀ b ∈ p.take s, b = 0
    · rw [if_pos (by simpa using hz)]
      exact ⟨fun _ => hz, fun _ => rfl⟩
    · rw [if_neg (by simpa using hz)]
      simp [hz]
  · simp [hle]

lemma unpad_zeroes_eq_none_of_short (s : Nat) (p : List Nat)
    (h : p.length < s) : unpad_zeroes s p = none := by
  unfold unpad_zeroes
  rw [if_neg (by omega)]

/-- Any successful `unpad_zeroes` result is the suffix after the prefix. -/
lemma unpad_zeroes_some_imp (s : Nat) (p r : List Nat)
    (h : unpad_zeroes s p = some r) : r = p.drop s := by
  unfold unpad_zeroes at h
  by_cases hle : s ≤ p.length
  · rw [if_pos hle] at h
    simp only [List.splitAt_eq] at h
    by_cases hz : (p.take s).all (fun b => b == 0)
    · rw [if_pos hz] at h
      exact (Option.some.inj h).symm
    · rw [if_neg hz] at h
      simp at h
  · rw [if_neg hle] at h
    simp at h

lemma unpad_zeroes_pad_zeroes (s : Nat) (x : List Nat) :
    unpad_zeroes s (pad_zeroes s x) = some x := by
  have h := (unpad_zeroes_eq_some_iff s (pad_zeroes s x)).mpr
    ⟨by rw [pad_zeroes_length]; omega,
     by
      rw [pad_zeroes_take]
      intro b hb
      exact List.eq_of_mem_replicate hb⟩
  rw [pad_zeroes_drop] at h
  exact h

/-- C2: padding codec round-trip: `unpad_zeroes s (pad_zeroes s x) = some x`;
the padded buffer has length `x.length + s`, its first `s` bytes are all
zero, and the bytes after the prefix equal `x`. -/
theorem pad_unpad_roundtrip (s : Nat) (x : List Nat) :
    unpad_zeroes s (pad_zeroes s x) = some x ∧
    (pad_zeroes s x).length = x.length + s ∧
    (pad_zeroes s x).take s = List.replicate s 0 ∧
    (pad_zeroes s x).drop s = x :=
  ⟨unpad_zeroes_pad_zeroes s x, pad_zeroes_length s x,
   pad_zeroes_take s x, pad_zeroes_drop s x⟩

/-- C3: unpad contract: `unpad_zeroes s p` succeeds with the bytes after the
first `s` bytes exactly when `s ≤ p.length` and the first `s` bytes are all
zero; any successful value is that suffix; in every other case the result is
the single undistinguished `none`. -/
theorem unpad_zeroes_contract (s : Nat) (p : List Nat) :
    (unpad_zeroes s p = some (p.drop s) ↔
      s ≤ p.length ∧ ∀ b ∈ p.take s, b = 0) ∧
    (∀ r, unpad_zeroes s p = some r → r = p.drop s) ∧
    (¬ (s ≤ p.length ∧ ∀ b ∈ p.take s, b = 0) → unpad_zeroes s p = none) := by
  refine ⟨unpad_zeroes_eq_some_iff s p, fun r => unpad_zeroes_some_imp s p r, ?_⟩
  intro hno
  cases h : unpad_zeroes s p with
  | none => rfl
  | some r =>
    have hr := unpad_zeroes_some_imp s p r h
    subst hr
    exact absurd ((unpad_zeroes_eq_some_iff s p).mp h) hno

/-- Witness for C3 at a concrete failing input (non-zero byte in prefix). -/
theorem unpad_zeroes_contract_witness : unpad_zeroes 2 [0, 1, 5] = none :=
  (unpad_zeroes_contract 2 [0, 1, 5]).2.2 (by decide)

/-- The external sodalite `crypto_box` primitive operations, as an injected
capability.  `box_ c m n pk sk` and `box_open m c n pk sk` take the output
buffer first (Rust mutates it in place; here the new contents are returned),
and `box_keypair_seed seed` returns `(public_key, secret_key)`. -/
structure BoxPrim where
  box_ : List Nat → List Nat → List Nat → List Nat → List Nat → Except Unit (List Nat)
  box_open : List Nat → List Nat → List Nat → List Nat → List Nat → Except Unit (List Nat)
  box_keypair_seed : List Nat → List Nat × List Nat

/-- The external sodalite `crypto_secretbox` primitive operations. -/
structure SecretboxPrim where
  secretbox : List Nat → List Nat → List Nat → List Nat → Except Unit (List Nat)
  secretbox_open : List Nat → List Nat → List Nat → List Nat → Except Unit (List Nat)

/-- The external sodalite `crypto_sign` primitive operations.
`sign_attached sm m sk` returns the filled signed-message buffer;
`sign_attached_open m sm pk` returns the filled buffer and the verified
length on success. -/
structure SignPrim where
  sign_attached : List Nat → List Nat → List Nat → List Nat
  sign_attached_open : List Nat → List Nat → List Nat → Except Unit (List Nat × Nat)
  sign_keypair_seed : List Nat → List Nat × List Nat

/-- src/safe_box.rs `safe_box_keypair_seed`: delegate to
`sodalite::box_keypair_seed`. -/
def safe_box_keypair_seed (P : BoxPrim) (seed : List Nat) :
    List Nat × List Nat :=
  P.box_keypair_seed seed

/-- src/safe_box.rs `safe_box`: pad the plaintext with `BOX_ZEROBYTES`
zeroes, call `sodalite::box_` with a same-sized zeroed output buffer
(`expect` on failure), then strip `BOX_BOXZEROBYTES` zeroes
(`expect` on failure). -/
def safe_box (P : BoxPrim)
    (plaintext nonce public_key secret_key : List Nat) :
    RResult (List Nat) :=
  let padded_plaintext := pad_zeroes BOX_ZEROBYTES plaintext
  match P.box_ (List.replicate padded_plaintext.length 0) padded_plaintext
      nonce public_key secret_key with
  | Except.error _ => RResult.fatal "safe_box: box_ failed!"
  | Except.ok padded_ciphertext =>
    match unpad_zeroes BOX_BOXZEROBYTES padded_ciphertext with
    | none => RResult.fatal "safe_box: unpad_zeroes failed!"
    | some ciphertext => RResult.ok ciphertext

/-- src/safe_box.rs `safe_box_open`: pad the ciphertext with
`BOX_BOXZEROBYTES` zeroes, call `sodalite::box_open` with a same-sized
zeroed output buffer (`.ok()?` on failure), then strip `BOX_ZEROBYTES`
zeroes (`None` on failure). -/
def safe_box_open (P : BoxPrim)
    (ciphertext nonce public_key secret_key : List Nat) :
    RResult (Option (List Nat)) :=
  let padded_ciphertext := pad_zeroes BOX_BOXZEROBYTES ciphertext
  match P.box_open (List.replicate padded_ciphertext.length 0)
      padded_ciphertext nonce public_key secret_key with
  | Except.error _ => RResult.ok none
  | Except.ok padded_plaintext =>
    RResult.ok (unpad_zeroes BOX_ZEROBYTES padded_plaintext)

/-- src/safe_secretbox.rs `safe_secretbox`: pad with
`SECRETBOX_ZEROBYTES`, call `sodalite::secretbox` with a same-sized zeroed
output buffer (`expect` on failure), strip `SECRETBOX_BOXZEROBYTES`
(`expect` on failure). -/
def safe_secretbox (P : SecretboxPrim)
    (plaintext nonce key : List Nat) : RResult (List Nat) :=
  let padded_plaintext := pad_zeroes SECRETBOX_ZEROBYTES plaintext
  match P.secretbox (List.replicate padded_plaintext.length 0)
      padded_plaintext nonce key with
  | Except.error _ => RResult.fatal "safe_secretbox: secretbox failed!"
  | Except.ok padded_ciphertext =>
    match unpad_zeroes SECRETBOX_BOXZEROBYTES padded_ciphertext with
    | none => RResult.fatal "safe_secretbox: unpad_zeroes failed!"
    | some ciphertext => RResult.ok ciphertext

/-- src/safe_secretbox.rs `safe_secretbox_open`: pad with
`BOX_BOXZEROBYTES` (the source names the box constant here; its value
equals `SECRETBOX_BOXZEROBYTES`), call `sodalite::secretbox_open` with a
same-sized zeroed output buffer (`.ok()?` on failure), strip
`BOX_ZEROBYTES` (`None` on failure). -/
def safe_secretbox_open (P : SecretboxPrim)
    (ciphertext nonce key : List Nat) : RResult (Option (List Nat)) :=
  let padded_ciphertext := pad_zeroes BOX_BOXZEROBYTES ciphertext
  match P.secretbox_open (List.replicate padded_ciphertext.length 0)
      padded_ciphertext nonce key with
  | Except.error _ => RResult.ok none
  | Except.ok padded_plaintext =>
    RResult.ok (unpad_zeroes BOX_ZEROBYTES padded_plaintext)

/-- src/safe_sign.rs `safe_sign_attached`: allocate a zeroed output buffer
of length `unsigned_message.len() + SIGN_LEN`, call
`sodalite::sign_attached`, and return the buffer verbatim. -/
def safe_sign_attached (P : SignPrim)
    (unsigned_message secret_key : List Nat) : List Nat :=
  let signed_message :=
    List.replicate (unsigned_message.length + SIGN_LEN) 0
  P.sign_attached signed_message unsigned_message secret_key

/-- src/safe_sign.rs `safe_sign_attached_open`: allocate a zeroed output
buffer of length `signed_message.len()`, call
`sodalite::sign_attached_open` (`.ok()?` on failure), `assert!` the
verified length fits the buffer, truncate to it and return. -/
def safe_sign_attached_open (P : SignPrim)
    (signed_message public_key : List Nat) :
    RResult (Option (List Nat)) :=
  let verified_message := List.replicate signed_message.length 0
  match P.sign_attached_open verified_message signed_message public_key with
  | Except.error _ => RResult.ok none
  | Except.ok (vm, verified_len) =>
    if verified_len ≤ vm.length then
      RResult.ok (some (vm.take verified_len))
    else
      RResult.fatal "assertion failed: verified_len <= verified_message.len()"

/-- `unpad_zeroes` succeeds when the prefix fits and is all zero. -/
lemma unpad_of_take_eq (s : Nat) (p : List Nat) (hlen : s ≤ p.length)
    (hz : p.take s = List.replicate s 0) :
    unpad_zeroes s p = some (p.drop s) :=
  (unpad_zeroes_eq_some_iff s p).mpr
    ⟨hlen, by rw [hz]; intro b hb; exact List.eq_of_mem_replicate hb⟩

/-- A degenerate sodalite box primitive whose transform returns its input
buffer unchanged; it satisfies the NaCl buffer contract on well-padded
inputs and is used to witness the wrapper theorems. -/
def idBoxPrim : BoxPrim where
  box_ := fun _ m _ _ _ => Except.ok m
  box_open := fun _ c _ _ _ => Except.ok c
  box_keypair_seed := fun seed => (seed, seed)

/-- A degenerate sodalite box primitive that always signals failure. -/
def failBoxPrim : BoxPrim where
  box_ := fun _ _ _ _ _ => Except.error ()
  box_open := fun _ _ _ _ _ => Except.error ()
  box_keypair_seed := fun seed => (seed, seed)

/-- A degenerate sodalite secretbox primitive returning its input. -/
def idSecretboxPrim : SecretboxPrim where
  secretbox := fun _ m _ _ => Except.ok m
  secretbox_open := fun _ c _ _ => Except.ok c

/-- A degenerate sodalite secretbox primitive that always fails. -/
def failSecretboxPrim : SecretboxPrim where
  secretbox := fun _ _ _ _ => Except.error ()
  secretbox_open := fun _ _ _ _ => Except.error ()

/-- C4: box seal shape: `safe_box` pads the plaintext with exactly
`BOX_ZEROBYTES = 32` zero bytes, hands the primitive an output buffer of
the padded input's size, and — when the primitive meets its documented
contract (success, size-preserving, `BOX_BOXZEROBYTES` zero prefix) —
strips exactly `BOX_BOXZEROBYTES = 16` bytes, so the returned ciphertext
has length `m.length + 16`. -/
theorem safe_box_shape (P : BoxPrim) (m n pk sk c : List Nat)
    (hok : P.box_ (List.replicate (pad_zeroes BOX_ZEROBYTES m).length 0)
        (pad_zeroes BOX_ZEROBYTES m) n pk sk = Except.ok c)
    (hlen : c.length = (pad_zeroes BOX_ZEROBYTES m).length)
    (hzero : c.take BOX_BOXZEROBYTES = List.replicate BOX_BOXZEROBYTES 0) :
    safe_box P m n pk sk = RResult.ok (c.drop BOX_BOXZEROBYTES) ∧
    (c.drop BOX_BOXZEROBYTES).length = m.length + BOX_BOXZEROBYTES ∧
    (pad_zeroes BOX_ZEROBYTES m).length = m.length + BOX_ZEROBYTES ∧
    (pad_zeroes BOX_ZEROBYTES m).take BOX_ZEROBYTES =
      List.replicate BOX_ZEROBYTES 0 := by
  have hclen : c.length = m.length + BOX_ZEROBYTES := by
    rw [hlen, pad_zeroes_length]
  have hun : unpad_zeroes BOX_BOXZEROBYTES c =
      some (c.drop BOX_BOXZEROBYTES) :=
    unpad_of_take_eq _ _
      (by rw [hclen]; show (16 : Nat) ≤ m.length + 32; omega) hzero
  refine ⟨?_, ?_, pad_zeroes_length _ _, pad_zeroes_take _ _⟩
  · simp only [safe_box, hok, hun]
  · rw [List.length_drop, hclen]
    show m.length + 32 - 16 = m.length + 16
    omega

/-- Witness for C4: the identity primitive on the one-byte plaintext. -/
theorem safe_box_shape_witness :
    safe_box idBoxPrim [5] [] [] [] =
      RResult.ok ((pad_zeroes BOX_ZEROBYTES [5]).drop BOX_BOXZEROBYTES) ∧
    ((pad_zeroes BOX_ZEROBYTES [5]).drop BOX_BOXZEROBYTES).length =
      ([5] : List Nat).length + BOX_BOXZEROBYTES ∧
    (pad_zeroes BOX_ZEROBYTES [5]).length =
      ([5] : List Nat).length + BOX_ZEROBYTES ∧
    (pad_zeroes BOX_ZEROBYTES [5]).take BOX_ZEROBYTES =
      List.replicate BOX_ZEROBYTES 0 :=
  safe_box_shape idBoxPrim [5] [] [] [] (pad_zeroes BOX_ZEROBYTES [5])
    rfl rfl (by decide)

/-- C6: recoverable authentication failure: when the primitive's verifying
transform signals failure, `safe_box_open` and `safe_secretbox_open` return
the plain absent result (`RResult.ok none`), never a fatal fault, and carry
no diagnostic detail. -/
theorem open_auth_failure_none (P : BoxPrim) (Q : SecretboxPrim)
    (c n pk sk c' n' k : List Nat) (e e' : Unit)
    (hfail : P.box_open
        (List.replicate (pad_zeroes BOX_BOXZEROBYTES c).length 0)
        (pad_zeroes BOX_BOXZEROBYTES c) n pk sk = Except.error e)
    (hfail' : Q.secretbox_open
        (List.replicate (pad_zeroes BOX_BOXZEROBYTES c').length 0)
        (pad_zeroes BOX_BOXZEROBYTES c') n' k = Except.error e') :
    safe_box_open P c n pk sk = RResult.ok none ∧
    safe_secretbox_open Q c' n' k = RResult.ok none := by
  constructor
  · simp only [safe_box_open, hfail]
  · simp only [safe_secretbox_open, hfail']

/-- Witness for C6: the always-failing primitives. -/
theorem open_auth_failure_none_witness :
    safe_box_open failBoxPrim [1] [] [] [] = RResult.ok none ∧
    safe_secretbox_open failSecretboxPrim [2] [] [] = RResult.ok none :=
  open_auth_failure_none failBoxPrim failSecretboxPrim
    [1] [] [] [] [2] [] [] () () rfl rfl

/-- A shorter all-zero prefix follows from a longer one. -/
lemma take_zero_mono (k s : Nat) (l : List Nat) (hk : k ≤ s)
    (h : l.take s = List.replicate s 0) : l.take k = List.replicate k 0 := by
  have hks : l.take k = (l.take s).take k := by
    rw [List.take_take, Nat.min_eq_left hk]
  rw [hks, h, List.take_replicate, Nat.min_eq_left hk]

/-- C1: box round-trip: with keypairs derived from two distinct seeds and a
primitive meeting its documented NaCl contract (infallible on well-padded
same-size buffers, zero `BOX_BOXZEROBYTES` prefix on the ciphertext, and
`box_open` inverting `box_` for the matching keys), sealing with
`(pkB, skA)` then opening with `(pkA, skB)` under the same nonce returns
the original plaintext. -/
theorem safe_box_roundtrip (P : BoxPrim) (A B n m : List Nat) (hAB : A ≠ B)
    (hcontract : ∀ pm c0 : List Nat,
      c0.length = pm.length →
      pm.take BOX_ZEROBYTES = List.replicate BOX_ZEROBYTES 0 →
      ∃ c, P.box_ c0 pm n (P.box_keypair_seed B).1 (P.box_keypair_seed A).2 =
          Except.ok c ∧
        c.length = pm.length ∧
        c.take BOX_BOXZEROBYTES = List.replicate BOX_BOXZEROBYTES 0 ∧
        ∀ m0 : List Nat, m0.length = c.length →
          P.box_open m0 c n (P.box_keypair_seed A).1 (P.box_keypair_seed B).2 =
            Except.ok pm) :
    ∃ ct,
      safe_box P m n (safe_box_keypair_seed P B).1
        (safe_box_keypair_seed P A).2 = RResult.ok ct ∧
      safe_box_open P ct n (safe_box_keypair_seed P A).1
        (safe_box_keypair_seed P B).2 = RResult.ok (some m) := by
  obtain ⟨c, hok, hclen, hczero, hinv⟩ :=
    hcontract (pad_zeroes BOX_ZEROBYTES m)
      (List.replicate (pad_zeroes BOX_ZEROBYTES m).length 0)
      (by simp) (pad_zeroes_take _ _)
  have h16le : BOX_BOXZEROBYTES ≤ c.length := by
    rw [hclen, pad_zeroes_length]
    show (16 : Nat) ≤ m.length + 32
    omega
  have hun : unpad_zeroes BOX_BOXZEROBYTES c =
      some (c.drop BOX_BOXZEROBYTES) :=
    unpad_of_take_eq _ _ h16le hczero
  refine ⟨c.drop BOX_BOXZEROBYTES, ?_, ?_⟩
  · simp only [safe_box, safe_box_keypair_seed, hok, hun]
  · have hpad : pad_zeroes BOX_BOXZEROBYTES (c.drop BOX_BOXZEROBYTES) = c := by
      unfold pad_zeroes
      rw [← hczero, List.take_append_drop]
    simp only [safe_box_open, safe_box_keypair_seed, hpad]
    have hopen := hinv (List.replicate c.length 0) (by simp)
    simp only [hopen, unpad_zeroes_pad_zeroes]

/-- The identity primitive meets the box contract used by C1. -/
lemma idBoxPrim_contract (A B n : List Nat) :
    ∀ pm c0 : List Nat,
      c0.length = pm.length →
      pm.take BOX_ZEROBYTES = List.replicate BOX_ZEROBYTES 0 →
      ∃ c, idBoxPrim.box_ c0 pm n (idBoxPrim.box_keypair_seed B).1
          (idBoxPrim.box_keypair_seed A).2 = Except.ok c ∧
        c.length = pm.length ∧
        c.take BOX_BOXZEROBYTES = List.replicate BOX_BOXZEROBYTES 0 ∧
        ∀ m0 : List Nat, m0.length = c.length →
          idBoxPrim.box_open m0 c n (idBoxPrim.box_keypair_seed A).1
            (idBoxPrim.box_keypair_seed B).2 = Except.ok pm := by
  intro pm c0 _ hz
  exact ⟨pm, rfl, rfl,
    take_zero_mono BOX_BOXZEROBYTES BOX_ZEROBYTES pm
      (by show (16 : Nat) ≤ 32; omega) hz,
    fun m0 _ => rfl⟩

/-- Witness for C1: the spec's example scenario (seeds of repeated `0x01`
and `0x02`, all-zero 24-byte nonce, plaintext "hello") under the identity
primitive. -/
theorem safe_box_roundtrip_witness :
    ∃ ct,
      safe_box idBoxPrim [104, 101, 108, 108, 111] (List.replicate 24 0)
        (safe_box_keypair_seed idBoxPrim (List.replicate 32 2)).1
        (safe_box_keypair_seed idBoxPrim (List.replicate 32 1)).2 =
        RResult.ok ct ∧
      safe_box_open idBoxPrim ct (List.replicate 24 0)
        (safe_box_keypair_seed idBoxPrim (List.replicate 32 1)).1
        (safe_box_keypair_seed idBoxPrim (List.replicate 32 2)).2 =
        RResult.ok (some [104, 101, 108, 108, 111]) :=
  safe_box_roundtrip idBoxPrim (List.replicate 32 1) (List.replicate 32 2)
    (List.replicate 24 0) [104, 101, 108, 108, 111] (by decide)
    (idBoxPrim_contract _ _ _)

/-- C5: secretbox padding constants: `safe_secretbox` pads the plaintext
with `SECRETBOX_ZEROBYTES = 32` zeroes and strips
`SECRETBOX_BOXZEROBYTES = 16`; `safe_secretbox_open` pads the ciphertext
with `SECRETBOX_BOXZEROBYTES` zeroes and, on primitive success, strips
`SECRETBOX_ZEROBYTES` from the output. -/
theorem safe_secretbox_padding_constants (P : SecretboxPrim)
    (m n k c ct pm : List Nat)
    (hseal : P.secretbox
        (List.replicate (pad_zeroes SECRETBOX_ZEROBYTES m).length 0)
        (pad_zeroes SECRETBOX_ZEROBYTES m) n k = Except.ok ct)
    (hzero : ct.take SECRETBOX_BOXZEROBYTES =
        List.replicate SECRETBOX_BOXZEROBYTES 0)
    (hlen : SECRETBOX_BOXZEROBYTES ≤ ct.length)
    (hopen : P.secretbox_open
        (List.replicate (pad_zeroes SECRETBOX_BOXZEROBYTES c).length 0)
        (pad_zeroes SECRETBOX_BOXZEROBYTES c) n k = Except.ok pm) :
    safe_secretbox P m n k =
      RResult.ok (ct.drop SECRETBOX_BOXZEROBYTES) ∧
    safe_secretbox_open P c n k =
      RResult.ok (unpad_zeroes SECRETBOX_ZEROBYTES pm) := by
  constructor
  · have hun := unpad_of_take_eq _ _ hlen hzero
    simp only [safe_secretbox, hseal, hun]
  · have he : SECRETBOX_BOXZEROBYTES = BOX_BOXZEROBYTES := rfl
    have he2 : SECRETBOX_ZEROBYTES = BOX_ZEROBYTES := rfl
    rw [he] at hopen
    rw [he2]
    simp only [safe_secretbox_open, hopen]

/-- Witness for C5: the identity secretbox primitive on one-byte buffers. -/
theorem safe_secretbox_padding_constants_witness :
    safe_secretbox idSecretboxPrim [7] [] [] =
      RResult.ok ((pad_zeroes SECRETBOX_ZEROBYTES [7]).drop
        SECRETBOX_BOXZEROBYTES) ∧
    safe_secretbox_open idSecretboxPrim [3] [] [] =
      RResult.ok (unpad_zeroes SECRETBOX_ZEROBYTES
        (pad_zeroes SECRETBOX_BOXZEROBYTES [3])) :=
  safe_secretbox_padding_constants idSecretboxPrim [7] [] [] [3]
    (pad_zeroes SECRETBOX_ZEROBYTES [7])
    (pad_zeroes SECRETBOX_BOXZEROBYTES [3])
    rfl (by decide) (by decide) rfl

/-- A degenerate sodalite sign primitive: signing returns the allocated
buffer unchanged; verification succeeds with verified length zero. -/
def bufSignPrim : SignPrim where
  sign_attached := fun sm _ _ => sm
  sign_attached_open := fun m0 _ _ => Except.ok (m0, 0)
  sign_keypair_seed := fun seed => (seed, seed)

/-- C7: sign output shape: `safe_sign_attached` allocates an output buffer
of length exactly `m.length + SIGN_LEN`, invokes the primitive, and returns
that buffer verbatim — no padding or unpadding — so (for a primitive whose
in-place write preserves the buffer length, as Rust slices force) the
signed message has length `m.length + SIGN_LEN`. -/
theorem safe_sign_attached_shape (P : SignPrim) (m sk : List Nat)
    (hlen : (P.sign_attached (List.replicate (m.length + SIGN_LEN) 0)
        m sk).length = m.length + SIGN_LEN) :
    safe_sign_attached P m sk =
      P.sign_attached (List.replicate (m.length + SIGN_LEN) 0) m sk ∧
    (safe_sign_attached P m sk).length = m.length + SIGN_LEN :=
  ⟨rfl, hlen⟩

/-- Witness for C7: the buffer-returning sign primitive. -/
theorem safe_sign_attached_shape_witness :
    safe_sign_attached bufSignPrim [1, 2] [] =
      bufSignPrim.sign_attached
        (List.replicate (([1, 2] : List Nat).length + SIGN_LEN) 0) [1, 2] [] ∧
    (safe_sign_attached bufSignPrim [1, 2] []).length =
      ([1, 2] : List Nat).length + SIGN_LEN :=
  safe_sign_attached_shape bufSignPrim [1, 2] [] (by decide)

/-- C8: verify truncation: when the primitive verifying transform succeeds
with verified length `vlen`, its in-place write preserves the buffer length
(as Rust slices force), and the primitive honours its contract
(`vlen ≤ signed_message.length`), `safe_sign_attached_open` passes the
assertion and returns exactly the first `vlen` bytes of the output buffer,
never the untruncated buffer. -/
theorem safe_sign_attached_open_truncates (P : SignPrim)
    (sm pk vm : List Nat) (vlen : Nat)
    (hok : P.sign_attached_open (List.replicate sm.length 0) sm pk =
        Except.ok (vm, vlen))
    (hbuf : vm.length = sm.length)
    (hcontract : vlen ≤ sm.length) :
    safe_sign_attached_open P sm pk = RResult.ok (some (vm.take vlen)) ∧
    (vm.take vlen).length = vlen := by
  have hle : vlen ≤ vm.length := by rw [hbuf]; exact hcontract
  constructor
  · simp only [safe_sign_attached_open, hok]
    rw [if_pos hle]
  · rw [List.length_take, Nat.min_eq_left hle]

/-- Witness for C8: the buffer-returning sign primitive, verified length 0. -/
theorem safe_sign_attached_open_truncates_witness :
    safe_sign_attached_open bufSignPrim [1, 2] [] =
      RResult.ok (some ((List.replicate 2 0).take 0)) ∧
    ((List.replicate 2 0).take 0).length = 0 :=
  safe_sign_attached_open_truncates bufSignPrim [1, 2] []
    (List.replicate 2 0) 0 rfl rfl (by decide)

/-- C10: short-ciphertext edge case: for a ciphertext shorter than
`BOX_BOXZEROBYTES = 16` bytes, the padded output buffer is shorter than
`BOX_ZEROBYTES = 32`, so the final unpad cannot succeed and both
`safe_box_open` and `safe_secretbox_open` return the plain `none` (for any
primitive whose in-place write preserves the buffer length); by contrast,
in `safe_box` a failing final unpad is a fatal fault. -/
theorem open_short_ciphertext (P : BoxPrim) (Q : SecretboxPrim)
    (c n pk sk c' n' k m : List Nat)
    (hshort : c.length < BOX_BOXZEROBYTES)
    (hshort' : c'.length < BOX_BOXZEROBYTES)
    (hPlen : ∀ pm, P.box_open
        (List.replicate (pad_zeroes BOX_BOXZEROBYTES c).length 0)
        (pad_zeroes BOX_BOXZEROBYTES c) n pk sk = Except.ok pm →
        pm.length = (pad_zeroes BOX_BOXZEROBYTES c).length)
    (hQlen : ∀ pm, Q.secretbox_open
        (List.replicate (pad_zeroes BOX_BOXZEROBYTES c').length 0)
        (pad_zeroes BOX_BOXZEROBYTES c') n' k = Except.ok pm →
        pm.length = (pad_zeroes BOX_BOXZEROBYTES c').length) :
    safe_box_open P c n pk sk = RResult.ok none ∧
    safe_secretbox_open Q c' n' k = RResult.ok none ∧
    (∀ pc, P.box_ (List.replicate (pad_zeroes BOX_ZEROBYTES m).length 0)
        (pad_zeroes BOX_ZEROBYTES m) n pk sk = Except.ok pc →
      unpad_zeroes BOX_BOXZEROBYTES pc = none →
      safe_box P m n pk sk =
        RResult.fatal "safe_box: unpad_zeroes failed!") := by
  refine ⟨?_, ?_, ?_⟩
  · simp only [safe_box_open]
    cases hcase : P.box_open
        (List.replicate (pad_zeroes BOX_BOXZEROBYTES c).length 0)
        (pad_zeroes BOX_BOXZEROBYTES c) n pk sk with
    | error e => rfl
    | ok pm =>
      have hl := hPlen pm hcase
      have hlt : pm.length < BOX_ZEROBYTES := by
        rw [hl, pad_zeroes_length]
        have h16 : c.length < 16 := hshort
        show c.length + 16 < 32
        omega
      simp only [unpad_zeroes_eq_none_of_short _ _ hlt]
  · simp only [safe_secretbox_open]
    cases hcase : Q.secretbox_open
        (List.replicate (pad_zeroes BOX_BOXZEROBYTES c').length 0)
        (pad_zeroes BOX_BOXZEROBYTES c') n' k with
    | error e => rfl
    | ok pm =>
      have hl := hQlen pm hcase
      have hlt : pm.length < BOX_ZEROBYTES := by
        rw [hl, pad_zeroes_length]
        have h16 : c'.length < 16 := hshort'
        show c'.length + 16 < 32
        omega
      simp only [unpad_zeroes_eq_none_of_short _ _ hlt]
  · intro pc hok hnone
    simp only [safe_box, hok, hnone]

/-- Witness for C10: identity primitives on a one-byte and an empty
ciphertext. -/
theorem open_short_ciphertext_witness :
    safe_box_open idBoxPrim [9] [] [] [] = RResult.ok none ∧
    safe_secretbox_open idSecretboxPrim [] [] [] = RResult.ok none ∧
    (∀ pc, idBoxPrim.box_
        (List.replicate (pad_zeroes BOX_ZEROBYTES [4]).length 0)
        (pad_zeroes BOX_ZEROBYTES [4]) [] [] [] = Except.ok pc →
      unpad_zeroes BOX_BOXZEROBYTES pc = none →
      safe_box idBoxPrim [4] [] [] [] =
        RResult.fatal "safe_box: unpad_zeroes failed!") :=
  open_short_ciphertext idBoxPrim idSecretboxPrim [9] [] [] [] [] [] [] [4]
    (by decide) (by decide)
    (by intro pm h; cases h; rfl)
    (by intro pm h; cases h; rfl)

/-- src/macros.rs `type_wrapper`: the trait derives the macro places on the
generated newtype struct.  The macro writes `#[derive(Clone)]` and nothing
else — in particular no equality derive. -/
def type_wrapper_derives : List String := ["Clone"]

/-- src/macros.rs `type_wrapper`: the trait impl blocks the macro writes:
`From` of the underlying array (wrap) and `AsRef` of the underlying array
(borrow); no impl converts between two different wrappers. -/
def type_wrapper_impls : List String := ["From", "AsRef"]

/-- The role wrapper newtypes the library declares with the macro
(src/safe_box.rs, src/safe_secretbox.rs, src/safe_sign.rs, src/types.rs). -/
def wrapper_roles : List String :=
  ["SafeBoxPublicKey", "SafeBoxSecretKey", "SafeBoxNonce",
   "SafeSecretboxKey", "SafeSecretboxNonce",
   "SafeSignPublicKey", "SafeSignSecretKey", "SafeSecureSeed"]

/-- The newtype the macro generates, indexed by its role name: one field
holding the underlying fixed-size array. -/
structure Wrapper (role : String) where
  arr : List Nat

/-- The macro's `From` impl: wrap the raw array. -/
def Wrapper.wrap (role : String) (a : List Nat) : Wrapper role := ⟨a⟩

/-- The macro's `AsRef` impl: borrow the wrapped array. -/
def Wrapper.as_ref {role : String} (w : Wrapper role) : List Nat := w.arr

/-- The derived `Clone` impl: field-wise clone. -/
def Wrapper.clone {role : String} (w : Wrapper role) : Wrapper role :=
  ⟨w.arr⟩

/-- C9 counterexample: the macro derives no equality trait, so the role
wrappers do not provide structural equality as the claim states. -/
theorem type_wrapper_no_structural_equality :
    (type_wrapper_derives.contains "PartialEq" ||
     type_wrapper_derives.contains "Eq") = false := by decide

/-- C9 (amended): every role wrapper provides cloning (derived `Clone`,
structural on the wrapped array) and explicit wrap/borrow conversions
(`From` and `AsRef`, mutually inverse) from/to its own underlying array
only, with no conversion between wrappers of different roles; structural
equality is not provided (no `PartialEq`/`Eq` derive). -/
theorem type_wrapper_clone_and_roles :
    type_wrapper_derives.contains "Clone" = true ∧
    type_wrapper_derives.contains "PartialEq" = false ∧
    type_wrapper_derives.contains "Eq" = false ∧
    type_wrapper_impls = ["From", "AsRef"] ∧
    wrapper_roles.length = 8 ∧
    (∀ (role : String) (a : List Nat),
      (Wrapper.wrap role a).clone = Wrapper.wrap role a) ∧
    (∀ (role : String) (a : List Nat), (Wrapper.wrap role a).as_ref = a) ∧
    (∀ (role : String) (w : Wrapper role), Wrapper.wrap role w.as_ref = w) :=
  ⟨by decide, by decide, by decide, rfl, rfl,
   fun _ _ => rfl, fun _ _ => rfl, fun _ _ => rfl⟩
